import Mathlib

/-!
Verification development for the bivarcontours repository.

The definitions below are shallow embeddings of the Python source:
- `post_order` embeds `src/bivarcontours/unit_handling/formula_ast_dim.py`
  (the stack-based post-order dimension propagator over strings);
- `_generate_values`, `arangeList`, `linspaceList` embed the axis sample
  generator `_generate_values` in `src/bivarcontours/bivarcontours.py`
  together with the numpy calls it makes, with magnitudes modelled as
  rationals;
- `_is_valid_filename` / `_sanitize_filename` embed the filename helpers;
- `Contour.init` / `initialize_swapping_axes` embed `Contour.__init__`;
- `calculate_z` / `runtime_calculate_z` embed the two dimension checking
  paths, with the sympy/pint unit algebra modelled by `SymExpr` over
  exponent vectors (`Dim`).
-/

/-- A physical dimension: the exponent vector over the base quantities
length, mass, time, current, temperature, amount of substance, luminosity
and angle (the `dimensionality` of a pint quantity). -/
structure Dim where
  length : Int
  mass : Int
  time : Int
  current : Int
  temperature : Int
  amount : Int
  luminosity : Int
  angle : Int
deriving DecidableEq

/-- The dimensionless (all-zero) exponent vector. -/
def Dim.zero : Dim := ⟨0, 0, 0, 0, 0, 0, 0, 0⟩

/-- Exponent-vector addition (dimension of a product of quantities). -/
def Dim.add (a b : Dim) : Dim :=
  ⟨a.length + b.length, a.mass + b.mass, a.time + b.time,
   a.current + b.current, a.temperature + b.temperature,
   a.amount + b.amount, a.luminosity + b.luminosity, a.angle + b.angle⟩

/-- Exponent-vector negation (dimension of a reciprocal). -/
def Dim.neg (a : Dim) : Dim :=
  ⟨-a.length, -a.mass, -a.time, -a.current, -a.temperature, -a.amount,
   -a.luminosity, -a.angle⟩

/-- Exponent-vector scaling (dimension of an integer power). -/
def Dim.smul (k : Int) (a : Dim) : Dim :=
  ⟨k * a.length, k * a.mass, k * a.time, k * a.current, k * a.temperature,
   k * a.amount, k * a.luminosity, k * a.angle⟩

/-- The dimension of a length. -/
def dimLength : Dim := ⟨1, 0, 0, 0, 0, 0, 0, 0⟩

/-- The dimension of a time. -/
def dimTime : Dim := ⟨0, 0, 1, 0, 0, 0, 0, 0⟩

/-- The exponent components of a dimension as a list. -/
def Dim.comps (d : Dim) : List Int :=
  [d.length, d.mass, d.time, d.current, d.temperature, d.amount,
   d.luminosity, d.angle]

/-- The number of distinct base-unit factors of a unit product with this
exponent vector (one sympy factor per nonzero exponent: a first-power
factor is the base-unit `Quantity` itself, another power is a `Pow`). -/
def Dim.unitFactors (d : Dim) : Nat :=
  (d.comps.filter (fun x => x != 0)).length

/-- Every base-unit factor occurs at the first power (each factor of the
sympy product is a bare `Quantity`, not a `Pow`). -/
def Dim.allFirstPower (d : Dim) : Bool :=
  d.comps.all (fun x => x == 0 || x == 1)

/-- Python exceptions and library errors that the embedded code can raise. -/
inductive PyErr where
  | indexError
  | typeError
  | keyError
  | valueError
  | zeroDivisionError
  | undefinedUnitError (name : String)
  | unitError (msg : String)
  | dimensionalityError (actual expected : Dim)
  | assertionError (msg : String)
deriving DecidableEq

/-- Expression tree produced by parsing a formula text (`ast.parse` /
`sympify` both yield trees of this shape for the supported operator set).
Leaves are variable names or numeric literals; internal nodes are the
binary operators `+ - * / **`. -/
inductive PyOp where
  | add
  | sub
  | mult
  | div
  | pow
deriving DecidableEq

/-- A parsed formula: `ast.Name`, numeric `ast.Constant`, or `ast.BinOp`. -/
inductive PyExpr where
  | name (s : String)
  | num (c : ℚ)
  | binop (op : PyOp) (l : PyExpr) (r : PyExpr)
deriving DecidableEq

/-- The module-level `DIMENSIONS = {'x': 'm', 'y': 's'}` dictionary of
`formula_ast_dim.py`; `dict.get` returns `None` for other names. -/
def DIMENSIONS (s : String) : Option String :=
  if s = "x" then some "m" else if s = "y" then some "s" else none

/-- The operator dispatch inside the `if visit:` branch of `post_order`
(`formula_ast_dim.py`, lines 35-43), applied after the two operand entries
have been popped.  String concatenation on `None` (an undefined variable
dimension) is a Python `TypeError`; the `==`/`!=` comparisons are performed
before any concatenation, exactly as in the source conditional expressions. -/
def combineDims (op : PyOp) (leftDim rightDim : Option String) :
    Except PyErr (Option String) :=
  match op with
  | .mult =>
    match leftDim, rightDim with
    | some a, some b => .ok (some (a ++ "*" ++ b))
    | _, _ => .error .typeError
  | .add => .ok (if leftDim = rightDim then leftDim else some "Dimension Mismatch")
  | .sub => .ok (if leftDim = rightDim then leftDim else some "Dimension Mismatch")
  | .div =>
    if leftDim = rightDim then .ok (some "")
    else
      match leftDim, rightDim with
      | some a, some b => .ok (some (a ++ "/" ++ b))
      | _, _ => .error .typeError
  | .pow => .ok (some "Unhandled Operator")

/-- Size measure used to show the explicit-stack traversal terminates:
an unvisited `BinOp` entry is replaced by its two children plus a revisit
entry, which is strictly smaller. -/
def exprWeight : PyExpr → Nat
  | .name _ => 1
  | .num _ => 1
  | .binop _ l r => exprWeight l + exprWeight r + 2

/-- Weight of one `(visit, node)` stack entry. -/
def entryWeight : Bool × PyExpr → Nat
  | (true, _) => 1
  | (false, e) => exprWeight e

/-- Total weight of the explicit stack. -/
def stackMeasure (st : List (Bool × PyExpr)) : Nat :=
  (st.map entryWeight).sum

/-- The `while stack:` loop of `post_order` in `formula_ast_dim.py`.
The Python list `out` grows by `append` and shrinks by `pop` at its end;
it is modelled with its head as the most recently appended element, so
the first popped operand is the right one.  Popping from an empty list is
an `IndexError`.  An `ast.Constant` (numeric literal) falls into the
`else` branch, which only prints "Skipping node type" and pushes nothing. -/
def postOrderLoop : List (Bool × PyExpr) → List (Option String) →
    Except PyErr (List (Option String))
  | [], out => .ok out
  | (true, .name s) :: stack, out => postOrderLoop stack (DIMENSIONS s :: out)
  | (false, .name s) :: stack, out => postOrderLoop stack (DIMENSIONS s :: out)
  | (true, .num _) :: stack, out => postOrderLoop stack out
  | (false, .num _) :: stack, out => postOrderLoop stack out
  | (true, .binop op _ _) :: stack, out =>
    (match out with
     | rightDim :: leftDim :: rest =>
       match combineDims op leftDim rightDim with
       | .ok d => postOrderLoop stack (d :: rest)
       | .error e => .error e
     | _ => .error .indexError)
  | (false, .binop op l r) :: stack, out =>
    postOrderLoop ((false, l) :: (false, r) :: (true, .binop op l r) :: stack) out
termination_by st _ => stackMeasure st
decreasing_by
  all_goals simp [stackMeasure, entryWeight, exprWeight]
  all_goals omega

/-- `post_order(formula)` of `formula_ast_dim.py`: run the traversal loop
from the parsed tree and return `out[0]` (the first appended element, which
is the last element of the head-is-newest list); `out[0]` on an empty list
is an `IndexError`. -/
def post_order (f : PyExpr) : Except PyErr (Option String) :=
  match postOrderLoop [(false, f)] [] with
  | .ok out =>
    match out.getLast? with
    | some d => .ok d
    | none => .error .indexError
  | .error e => .error e

/-- `e` is a subexpression on which the traversal behaves compositionally:
run on any surrounding stack and operand list it pushes exactly the single
dimension value `d`.  (The traversal is not compositional on all inputs:
a numeric literal pushes nothing, which makes the enclosing operator pop
operands belonging to the surrounding context.) -/
def EvalsTo (e : PyExpr) (d : Option String) : Prop :=
  ∀ (rest : List (Bool × PyExpr)) (out : List (Option String)),
    postOrderLoop ((false, e) :: rest) out = postOrderLoop rest (d :: out)

/-- Python `int(...)` on a number: truncation toward zero. -/
def pyInt (q : ℚ) : Int := if 0 ≤ q then ⌊q⌋ else -⌊-q⌋

/-- `np.arange(start, stop, step)` for positive `step`, with magnitudes
modelled as rationals: `ceil((stop - start) / step)` samples
`start + i * step`, a half-open progression excluding `stop`. -/
def arangeList (start stop step : ℚ) : List ℚ :=
  (List.range (⌈(stop - start) / step⌉).toNat).map
    (fun i => start + (i : ℚ) * step)

/-- `np.linspace(start, stop, num)`: `num` evenly spaced samples including
both endpoints (`[]` for `num = 0`, `[start]` for `num = 1`). -/
def linspaceList (start stop : ℚ) (num : Nat) : List ℚ :=
  if num = 0 then []
  else if num = 1 then [start]
  else (List.range num).map
    (fun i => start + (i : ℚ) * (stop - start) / ((num : ℚ) - 1))

/-- The numpy call selected by `_generate_values` in `bivarcontours.py`,
with the arguments it is given.  The `logspaceCall start stop num`
constructor records the call
`np.logspace(np.log10 start, np.log10 stop, num)`, whose sample values are
irrational and outside the rational magnitude model; no claim depends on
its numeric output. -/
inductive GenCall where
  | arangeCall (start stop step : ℚ)
  | linspaceCall (start stop : ℚ) (num : Nat)
  | logspaceCall (start stop : ℚ) (num : Nat)
deriving DecidableEq

/-- `_generate_values(start, stop, step_interval, nstep, log)` of
`bivarcontours.py` (lines 361-368): `nstep ∧ log` picks `np.logspace`,
`nstep ∧ ¬log` picks `np.linspace` (with `int(step_interval)` samples),
and every other combination — including step mode with `log = true` —
falls into the `else` branch and calls `np.arange`. -/
def _generate_values (start stop step_interval : ℚ) (nstep log : Bool) :
    GenCall :=
  if nstep && log then .logspaceCall start stop (pyInt step_interval).toNat
  else if nstep && !log then .linspaceCall start stop (pyInt step_interval).toNat
  else .arangeCall start stop step_interval

/-- A character matched by the regex class `[\w]` of `_sanitize_filename`
(modelled over the ASCII range: digits 48-57, upper case 65-90, lower case
97-122, underscore 95). -/
def isWordChar (c : Char) : Bool :=
  decide ((48 ≤ c.toNat ∧ c.toNat ≤ 57) ∨ (65 ≤ c.toNat ∧ c.toNat ≤ 90) ∨
    (97 ≤ c.toNat ∧ c.toNat ≤ 122) ∨ c.toNat = 95)

/-- A character rejected by the `_is_valid_filename` regex
`^[^\\/:*?"<>|@\s]+$`: one of `\ / : * ? " < > | @` (codepoints
92 47 58 42 63 34 60 62 124 64) or whitespace matched by `\s`
(space, tab, newline, carriage return, vertical tab, form feed). -/
def invalidFilenameChar (c : Char) : Bool :=
  [92, 47, 58, 42, 63, 34, 60, 62, 124, 64].contains c.toNat ||
  [32, 9, 10, 13, 11, 12].contains c.toNat

/-- `_is_valid_filename(filename)` of `bivarcontours.py` (lines 371-376):
non-blank and every character outside the rejected class. -/
def _is_valid_filename (s : String) : Bool :=
  !s.data.isEmpty && s.data.all (fun c => !invalidFilenameChar c)

/-- One character of `re.sub(r'[^\w\.]', '_', filename)`: characters
outside `[\w.]` (46 is `.`) are replaced by `_`. -/
def sanitizeChar (c : Char) : Char :=
  if isWordChar c || c.toNat == 46 then c else '_'

/-- `_sanitize_filename(filename)` of `bivarcontours.py` (lines 379-384). -/
def _sanitize_filename (s : String) : String :=
  String.mk (s.data.map sanitizeChar)

/-- The unit names used by this development, a finite fragment of the pint
registry `UREG`: length units, time units, and the dimensionless unit
(the empty unit string). -/
inductive UnitName where
  | meter
  | kilometer
  | inch
  | second
  | hour
  | dimensionless
deriving DecidableEq

/-- The dimension a unit name resolves to. -/
def UnitName.dim : UnitName → Dim
  | .meter => dimLength
  | .kilometer => dimLength
  | .inch => dimLength
  | .second => dimTime
  | .hour => dimTime
  | .dimensionless => Dim.zero

/-- The conversion factor of a unit to its base unit
(`to_base_units`): 1 km = 1000 m, 1 in = 0.0254 m, 1 h = 3600 s. -/
def UnitName.scale : UnitName → ℚ
  | .meter => 1
  | .kilometer => 1000
  | .inch => 254/10000
  | .second => 1
  | .hour => 3600
  | .dimensionless => 1

/-- The base unit of a unit's dimension (pint SI base units). -/
def UnitName.base : UnitName → UnitName
  | .meter => .meter
  | .kilometer => .meter
  | .inch => .meter
  | .second => .second
  | .hour => .second
  | .dimensionless => .dimensionless

/-- Resolution of a unit string in the registry fragment; `none` models
pint's `UndefinedUnitError`.  The empty string parses as the dimensionless
unit, exactly as `UREG.parse_expression("")` does. -/
def parseUnitName : String → Option UnitName
  | "meter" => some .meter
  | "m" => some .meter
  | "kilometer" => some .kilometer
  | "km" => some .kilometer
  | "inch" => some .inch
  | "in" => some .inch
  | "second" => some .second
  | "s" => some .second
  | "hour" => some .hour
  | "h" => some .hour
  | "" => some .dimensionless
  | "dimensionless" => some .dimensionless
  | _ => none

/-- A pint `Quantity`: a rational magnitude with a unit of the registry. -/
structure PintQuantity where
  mag : ℚ
  unit : UnitName
deriving DecidableEq

/-- `Quantity.to_base_units`. -/
def PintQuantity.toBase (q : PintQuantity) : PintQuantity :=
  ⟨q.mag * q.unit.scale, q.unit.base⟩

/-- `UREG.parse_expression(z_dim)` as used for the target dimension:
resolve the unit string or raise `UndefinedUnitError`. -/
def parse_expression (s : String) : Except PyErr UnitName :=
  match parseUnitName s with
  | some u => .ok u
  | none => .error (.undefinedUnitError s)

/-- `unit_validation(dims)` of `bivarcontours.py` (lines 290-304): try to
construct `UnitQuantity(1, dim)` for each string, re-raising an undefined
unit as `UnitError("Dimension {dim} is not defined in the pint module")`;
the first failure aborts the loop. -/
def unit_validation : List String → Except PyErr Unit
  | [] => .ok ()
  | d :: rest =>
    match parseUnitName d with
    | none => .error (.unitError d)
    | some _ => unit_validation rest

/-- The ten axis attributes set by `Contour.initialize_swapping_axes`. -/
structure AxisFields where
  label_1 : String
  label_2 : String
  min_1 : ℚ
  max_1 : ℚ
  step_1 : ℚ
  dim_1 : String
  min_2 : ℚ
  max_2 : ℚ
  step_2 : ℚ
  dim_2 : String
deriving DecidableEq

/-- `Contour.initialize_swapping_axes` (`bivarcontours.py` lines 492-530):
with `swap_axes` set, each stored axis-1 attribute receives the axis-2
argument and vice versa; otherwise every attribute is stored unchanged. -/
def initialize_swapping_axes (swap_axes : Bool) (label_1 label_2 : String)
    (min_1 max_1 step_1 : ℚ) (dim_1 : String)
    (min_2 max_2 step_2 : ℚ) (dim_2 : String) : AxisFields :=
  if swap_axes then
    ⟨label_2, label_1, min_2, max_2, step_2, dim_2, min_1, max_1, step_1, dim_1⟩
  else
    ⟨label_1, label_2, min_1, max_1, step_1, dim_1, min_2, max_2, step_2, dim_2⟩

/-- The attributes a `Contour` object holds after `__init__` returns
(before `initialize_values` runs). -/
structure Contour where
  title : String
  formula : String
  dim_res : String
  nstep_x : Bool
  nstep_y : Bool
  x_log : Bool
  y_log : Bool
  swap_axes : Bool
  axes : AxisFields
  verbose : Bool
deriving DecidableEq

/-- `Contour.__init__` (`bivarcontours.py` lines 429-490), with the same
argument order.  The `isinstance` type asserts are enforced by the Lean
types; the value checks run in source order: `unit_validation` over
`[dim_res, dim_1, dim_2]` first, then the four `assert` statements, then
the non-axis attributes are stored unchanged and
`initialize_swapping_axes` stores the axis attributes. -/
def Contour.init (title label_1 label_2 formula dim_res : String)
    (min_1 max_1 step_1 : ℚ) (dim_1 : String)
    (min_2 max_2 step_2 : ℚ) (dim_2 : String)
    (nstep_x nstep_y x_log y_log swap_axes verbose : Bool) :
    Except PyErr Contour :=
  match unit_validation [dim_res, dim_1, dim_2] with
  | .error e => .error e
  | .ok _ =>
    if min_1 < max_1 then
      if min_2 < max_2 then
        if 0 < step_1 then
          if 0 < step_2 then
            .ok (Contour.mk title formula dim_res nstep_x nstep_y x_log y_log
              swap_axes
              (initialize_swapping_axes swap_axes label_1 label_2
                min_1 max_1 step_1 dim_1 min_2 max_2 step_2 dim_2)
              verbose)
          else .error (.assertionError "step_2 should be a positive number")
        else .error (.assertionError "step_1 should be a positive number")
      else .error (.assertionError "min_2 should be less than max_2")
    else .error (.assertionError "min_1 should be less than max_1")

/-- An evaluated sympy expression, the codomain of
`result_unit_of_formula`: a bare number (`Integer`/`Float`, including the
auto-simplified `Zero`); a quantity `c * Π base_unit ^ e` over
`sympy.physics.units` `Quantity` atoms, with coefficient `c` and
unit-exponent vector `d` (for `c = 1` sympy collapses the coefficient, so
`qty 1 d` denotes the bare unit product itself — an atomic `Quantity`
when `d` has a single first-power factor); or `residual` — any
expression outside this quantity fragment.  `residual` covers unevaluated
mixed-dimension sums such as `meter + second`, symbolic powers, `zoo`
from division by the exact zero, surds from non-integer exponents, and —
decisive for the vectorized path — every expression built from plain
`Symbol`s: `sympify` of a pint `Unit` falls back to parsing `str(unit)`
and yields the plain `Symbol` of that name, never the physics `Quantity`,
and no arithmetic on Symbols and numbers can produce a `Quantity`. -/
inductive SymExpr where
  | num (c : ℚ)
  | qty (c : ℚ) (d : Dim)
  | residual
deriving DecidableEq

/-- Whether the expression is in the quantity fragment (the only form
whose conversion to a pint quantity can succeed). -/
def SymExpr.isQty : SymExpr → Bool
  | .qty _ _ => true
  | _ => false

/-- sympy's automatic normalization of a coefficient-times-units product:
a zero coefficient collapses to the number `0`, an empty unit vector is a
bare number. -/
def mkQty (c : ℚ) (d : Dim) : SymExpr :=
  if c = 0 then .num 0 else if d = Dim.zero then .num c else .qty c d

/-- sympy `Add` with automatic evaluation: numbers add, like-dimension
quantities add coefficientwise, a zero summand disappears, and an
unlike-dimension sum stays unevaluated (`residual`). -/
def symAdd : SymExpr → SymExpr → SymExpr
  | .num a, .num b => .num (a + b)
  | .num a, .qty b d => if a = 0 then mkQty b d else .residual
  | .qty a d, .num b => if b = 0 then mkQty a d else .residual
  | .qty a d, .qty b e => if d = e then mkQty (a + b) d else .residual
  | _, _ => .residual

/-- sympy negation: `Mul(-1, e)`. -/
def symNeg : SymExpr → SymExpr
  | .num a => .num (-a)
  | .qty a d => .qty (-a) d
  | .residual => .residual

/-- sympy parses `l - r` as `Add(l, Mul(-1, r))`. -/
def symSub (a b : SymExpr) : SymExpr := symAdd a (symNeg b)

/-- sympy `Mul` with automatic evaluation: coefficients multiply and unit
exponent vectors add; an exact zero factor collapses everything to `0`. -/
def symMul : SymExpr → SymExpr → SymExpr
  | .num a, .num b => .num (a * b)
  | .num a, .qty b d => mkQty (a * b) d
  | .qty a d, .num b => mkQty (a * b) d
  | .qty a d, .qty b e => mkQty (a * b) (d.add e)
  | .num a, .residual => if a = 0 then .num 0 else .residual
  | .residual, .num b => if b = 0 then .num 0 else .residual
  | _, _ => .residual

/-- sympy `Pow(e, -1)`: the reciprocal.  `1/0` is `zoo`
(complex infinity), outside the convertible fragment. -/
def symInv : SymExpr → SymExpr
  | .num a => if a = 0 then .residual else .num a⁻¹
  | .qty a d => if a = 0 then .residual else mkQty a⁻¹ (Dim.neg d)
  | .residual => .residual

/-- sympy parses `l / r` as `Mul(l, Pow(r, -1))`. -/
def symDiv (a b : SymExpr) : SymExpr := symMul a (symInv b)

/-- sympy power by an integer literal: coefficients are raised and
exponent vectors scaled; `0 ** n` for negative `n` is `zoo`. -/
def symIntPow : SymExpr → Int → SymExpr
  | .num a, n => if a = 0 ∧ n < 0 then .residual else .num (a ^ n)
  | .qty a d, n => if a = 0 then .residual else mkQty (a ^ n) (Dim.smul n d)
  | .residual, _ => .residual

/-- sympy `Pow` with automatic evaluation: an integer-valued literal
exponent reduces; a non-integer exponent produces a surd and an exponent
carrying units stays a symbolic `Pow`, both outside the convertible
fragment. -/
def symPow : SymExpr → SymExpr → SymExpr
  | b, .num k => if k.den = 1 then symIntPow b k.num else .residual
  | _, _ => .residual

/-- Dispatch of the sympy operator corresponding to each formula node. -/
def symOp : PyOp → SymExpr → SymExpr → SymExpr
  | .add, a, b => symAdd a b
  | .sub, a, b => symSub a b
  | .mult, a, b => symMul a b
  | .div, a, b => symDiv a b
  | .pow, a, b => symPow a b

/-- `result_unit_of_formula(parsed_formula, x_sym, y_sym, x_unit, y_unit)`
(`bivarcontours.py` lines 66-75): substitute the two unit quantities for
the symbols `x` and `y` and let sympy's automatic evaluation reduce the
expression.  `convert_to(.., SIBASE).n(2)` is the identity on the base
quantities passed here.  Any other symbol stays symbolic, hence outside
the convertible fragment. -/
def result_unit_of_formula : PyExpr → SymExpr → SymExpr → SymExpr
  | .name s, xq, yq => if s = "x" then xq else if s = "y" then yq else .residual
  | .num c, _, _ => .num c
  | .binop op l r, xq, yq =>
    symOp op (result_unit_of_formula l xq yq) (result_unit_of_formula r xq yq)

/-- The pint quantity `create_pint_quantity` builds for the expected
result unit, recorded by its magnitude and its dimensionality — the only
attributes the two checkers subsequently read
(`result_quant.dimensionality`); the unit expression can be composite
(e.g. `meter * second`), which a single registry name cannot represent. -/
structure ExpectedUnit where
  mag : ℚ
  dim : Dim
deriving DecidableEq

/-- `sympy_to_pint_quantity(sympy_quantity)` of `map_base_units.py`
(lines 43-46): unpack `value, sympy_unit = q.args` and look `sympy_unit`
up in `sympy_to_pint_mapping`, whose keys are the eight sympy base-unit
`Quantity` objects.  Case analysis on the `.args` shape:
- a bare number has empty `.args`: `ValueError` from the unpacking;
- a `residual` expression is Symbol-built or otherwise outside the
  quantity fragment: the looked-up arg is never a `Quantity` key, a
  `KeyError` (a bare atom, e.g. a lone `Symbol`, has empty args and
  raises `ValueError` instead; modelled uniformly as the lookup failure —
  no claim depends on which of the two errors a bare atom raises);
- `qty c d` with `c ≠ 1`: `.args = (c, factors...)`.  Exactly one
  first-power factor gives `(c, unit)` and the lookup succeeds (all
  eight base units are keys of the mapping); two or more factors give
  three or more args, `ValueError` from the unpacking; one factor at
  another power gives a `Pow` arg, a `KeyError`;
- `qty 1 d` (sympy collapses the coefficient, the expression is the bare
  unit product): a single first-power factor is the atomic `Quantity`
  itself, whose `.args` are its name and abbreviation `Symbol`s — a
  `KeyError`, not a success; exactly two first-power factors give the
  two unit `Quantity`s as args, the second is looked up and the first is
  glued into the magnitude string of `Q_(f"{value} {pint_unit}")`,
  accidentally rebuilding the product (success, with the composite
  unit); three or more factors give three or more args, `ValueError`;
  any non-first-power factor leaves a `Pow` or a number in the unpacked
  pair, a `KeyError` (which of the two args is looked up depends on
  sympy's internal argument ordering; no claim depends on these cases). -/
def sympy_to_pint_quantity : SymExpr → Except PyErr ExpectedUnit
  | .num _ => .error .valueError
  | .residual => .error .keyError
  | .qty c d =>
    if d = Dim.zero then .error .valueError
    else if c = 1 then
      if d.unitFactors = 2 && d.allFirstPower then .ok ⟨1, d⟩
      else if 3 ≤ d.unitFactors then .error .valueError
      else .error .keyError
    else
      if d.unitFactors = 1 && d.allFirstPower then .ok ⟨c, d⟩
      else if 2 ≤ d.unitFactors then .error .valueError
      else .error .keyError

/-- An argument of `calculate_z`: a plain number or a pint quantity. -/
inductive PyVal where
  | scalar (v : ℚ)
  | quantity (q : PintQuantity)
deriving DecidableEq

/-- `is_dimensionless(value)` (`bivarcontours.py` lines 273-278):
`value.to_base_units()` succeeds on a pint quantity, returning the
original magnitude together with the base-unit quantity; on a plain
number the `AttributeError` branch returns `(value, "")` (no base
quantity). -/
def is_dimensionless : PyVal → ℚ × Option PintQuantity
  | .scalar v => (v, none)
  | .quantity q => (q.mag, some q.toBase)

/-- `pint_to_sympy_unit(value, pint_unit)` of `map_base_units.py`
(lines 32-36): build `UREG.Quantity(f"{value} {unit}")` and look its
`.units` up in `unit_mapping_pint_sympy`, whose keys are the pint base
units; the sympy unit found is represented here by its dimension.  For a
base-unit quantity argument the parsed units are that base unit, mapped
for `meter` and `second`; the dimensionless unit — produced by the `""`
that `is_dimensionless` returns for a plain number — is not a key of the
mapping, a `KeyError`. -/
def pint_to_sympy_unit (_value : ℚ) (base : Option PintQuantity) :
    Except PyErr Dim :=
  match base with
  | none => .error .keyError
  | some b =>
    match b.unit with
    | .meter => .ok dimLength
    | .second => .ok dimTime
    | _ => .error .keyError

/-- `create_sympy_quantity(value, sympy_unit) = value * sympy_unit`
(`map_base_units.py` lines 39-40), a product of a number and a sympy
base-unit `Quantity` (for `value = 1` sympy collapses the product to the
atomic `Quantity`, which `qty 1 d` denotes). -/
def create_sympy_quantity (value : ℚ) (u : Dim) : SymExpr := mkQty value u

/-- The sympy expression that `result_unit_of_formula` receives for one
axis in `runtime_calculate_z`, where the pint base-unit object itself is
substituted: `convert_to` sympifies it, and `sympify` of a pint `Unit`
falls back to parsing `str(unit)`, yielding the plain `Symbol` of that
name — never the `sympy.physics.units` `Quantity`.  A Symbol-built
expression is outside the quantity fragment, so it is `residual`
regardless of the unit name. -/
def sympify_pint_unit (_u : UnitName) : SymExpr := .residual

/-- An IEEE 754 double as numexpr computes with: a (rational-valued)
finite number, an infinity, or NaN. -/
inductive NFloat where
  | val (q : ℚ)
  | inf
  | ninf
  | nan
deriving DecidableEq

/-- IEEE addition. -/
def nfAdd : NFloat → NFloat → NFloat
  | .val a, .val b => .val (a + b)
  | .val _, .inf => .inf
  | .inf, .val _ => .inf
  | .val _, .ninf => .ninf
  | .ninf, .val _ => .ninf
  | .inf, .inf => .inf
  | .ninf, .ninf => .ninf
  | .inf, .ninf => .nan
  | .ninf, .inf => .nan
  | .nan, _ => .nan
  | _, .nan => .nan

/-- IEEE negation. -/
def nfNeg : NFloat → NFloat
  | .val a => .val (-a)
  | .inf => .ninf
  | .ninf => .inf
  | .nan => .nan

/-- IEEE subtraction. -/
def nfSub (a b : NFloat) : NFloat := nfAdd a (nfNeg b)

/-- IEEE multiplication. -/
def nfMul : NFloat → NFloat → NFloat
  | .val a, .val b => .val (a * b)
  | .val a, .inf => if 0 < a then .inf else if a < 0 then .ninf else .nan
  | .inf, .val a => if 0 < a then .inf else if a < 0 then .ninf else .nan
  | .val a, .ninf => if 0 < a then .ninf else if a < 0 then .inf else .nan
  | .ninf, .val a => if 0 < a then .ninf else if a < 0 then .inf else .nan
  | .inf, .inf => .inf
  | .ninf, .ninf => .inf
  | .inf, .ninf => .ninf
  | .ninf, .inf => .ninf
  | .nan, _ => .nan
  | _, .nan => .nan

/-- IEEE division: division of a non-zero number by zero gives a signed
infinity (numexpr emits a warning, not an exception), `0/0` gives NaN. -/
def nfDiv : NFloat → NFloat → NFloat
  | .val a, .val b =>
    if b = 0 then (if 0 < a then .inf else if a < 0 then .ninf else .nan)
    else .val (a / b)
  | .val _, .inf => .val 0
  | .val _, .ninf => .val 0
  | .inf, .val b => if b < 0 then .ninf else .inf
  | .ninf, .val b => if b < 0 then .inf else .ninf
  | .inf, _ => .nan
  | .ninf, _ => .nan
  | .nan, _ => .nan
  | _, .nan => .nan

/-- Float power, for the exponents representable in the rational model:
an integer-valued exponent.  `0.0 ** n` for negative `n` is `inf`.
A non-integral exponent is outside the rational model (`none`). -/
def nfPow : NFloat → NFloat → Option NFloat
  | .val a, .val b =>
    if b.den = 1 then
      (if a = 0 ∧ b.num < 0 then some .inf else some (.val (a ^ b.num)))
    else none
  | _, _ => none

/-- One cell of `ne.evaluate(formula_)`: the expression evaluated on the
values the variables `x` and `y` hold at that grid position.  A name other
than `x`/`y` is undefined in the evaluation frame — numexpr raises, which
the caller's `except` turns into an absent result. -/
def evalCell : PyExpr → NFloat → NFloat → Option NFloat
  | .name s, x, y =>
    if s = "x" then some x else if s = "y" then some y else none
  | .num c, _, _ => some (.val c)
  | .binop op l r, x, y =>
    match evalCell l x y, evalCell r x y with
    | some a, some b =>
      match op with
      | .add => some (nfAdd a b)
      | .sub => some (nfSub a b)
      | .mult => some (nfMul a b)
      | .div => some (nfDiv a b)
      | .pow => nfPow a b
    | _, _ => none

/-- One row of the vectorized evaluation; a length mismatch models the
broadcast error numexpr raises on incompatible operand shapes. -/
def evalRow (f : PyExpr) : List NFloat → List NFloat → Option (List NFloat)
  | [], [] => some []
  | x :: xs, y :: ys =>
    match evalCell f x y, evalRow f xs ys with
    | some c, some rest => some (c :: rest)
    | _, _ => none
  | _, _ => none

/-- The vectorized grid evaluation `ne.evaluate(formula_)` over the two
meshgrid arrays; `none` models any exception the evaluation raises. -/
def evalGrid (f : PyExpr) :
    List (List NFloat) → List (List NFloat) → Option (List (List NFloat))
  | [], [] => some []
  | xr :: xg, yr :: yg =>
    match evalRow f xr yr, evalGrid f xg yg with
    | some r, some rest => some (r :: rest)
    | _, _ => none
  | _, _ => none

/-- `np.meshgrid(xs, ys)`: the X grid repeats the x samples in each of
`len(ys)` rows; the Y grid holds one constant row per y sample. -/
def np_meshgrid (xs ys : List NFloat) :
    List (List NFloat) × List (List NFloat) :=
  (ys.map (fun _ => xs), ys.map (fun y => xs.map (fun _ => y)))

/-- The magnitude payload of the quantity `calculate_z` returns:
`result = matrix_form.evalf()` (line 221) evaluates the constant symbol
matrix `Matrix([[x, y]])` — independent of the formula and of the numeric
inputs; the commented-out line 220 shows the intended formula evaluation
that would have divided the magnitudes. -/
inductive CalcNumeric where
  | symMatrixXY
deriving DecidableEq

/-- The quantity returned by `calculate_z`: the (constant) numeric payload
wrapped with the expected result unit. -/
structure CalcZResult where
  mag : CalcNumeric
  expectedUnit : ExpectedUnit
deriving DecidableEq

/-- `result_quant.dimensionality` for the pre-check result. -/
def CalcZResult.dimensionality (r : CalcZResult) : Dim :=
  r.expectedUnit.dim

/-- The quantity returned by `runtime_calculate_z`: the evaluated grid —
`none` when the numeric evaluation failed and the `except` branch set
`result = None` — wrapped with the expected result unit. -/
structure RuntimeZResult where
  grid : Option (List (List NFloat))
  expectedUnit : ExpectedUnit
deriving DecidableEq

/-- `result_quant.dimensionality` for the post-check result. -/
def RuntimeZResult.dimensionality (r : RuntimeZResult) : Dim :=
  r.expectedUnit.dim

/-- `calculate_z(formula_, x_, y_, z_dim)` (`bivarcontours.py` lines
164-243), the symbolic pre-check path, with the source's step order:
unpack both inputs with `is_dimensionless`; (`sympify` is the identity on
the already-parsed tree; `result = matrix_form.evalf()` computes the
constant symbol matrix and cannot raise); convert both base units to
sympy units (`KeyError` possible, x first); build the sympy base
quantities; compute the expected result unit and convert it back to pint
(`ValueError`/`KeyError` possible); (the `isinstance(.., Float)` fallback
to `'Hz'` is dead code: `sympy_to_pint_quantity` returns a quantity or
raises); finally parse `z_dim` and compare dimensionalities, raising
`DimensionalityError(actual, expected)` on mismatch. -/
def calculate_z (formula : PyExpr) (x_ y_ : PyVal) (z_dim : String) :
    Except PyErr CalcZResult :=
  let x_magnitude := (is_dimensionless x_).1
  let x_base := (is_dimensionless x_).2
  let y_magnitude := (is_dimensionless y_).1
  let y_base := (is_dimensionless y_).2
  match pint_to_sympy_unit x_magnitude x_base with
  | .error e => .error e
  | .ok sympy_x_unit =>
    match pint_to_sympy_unit y_magnitude y_base with
    | .error e => .error e
    | .ok sympy_y_unit =>
      let sympy_x_base := create_sympy_quantity x_magnitude sympy_x_unit
      let sympy_y_base := create_sympy_quantity y_magnitude sympy_y_unit
      match sympy_to_pint_quantity
          (result_unit_of_formula formula sympy_x_base sympy_y_base) with
      | .error e => .error e
      | .ok expected_result_unit =>
        match parse_expression z_dim with
        | .error e => .error e
        | .ok zu =>
          if expected_result_unit.dim ≠ zu.dim then
            .error (.dimensionalityError expected_result_unit.dim zu.dim)
          else .ok ⟨.symMatrixXY, expected_result_unit⟩

/-- `runtime_calculate_z(formula_, x_, y_, x_base, y_base, z_dim)`
(`bivarcontours.py` lines 78-161), the vectorized path, with the source's
step order: compute the expected result unit by substituting the two pint
base-unit objects into the formula — `sympify` degrades them to plain
`Symbol`s (`sympify_pint_unit`), so this conversion step in fact always
raises `KeyError`/`ValueError`; if it succeeded, the function would go on
to evaluate the formula on the grids (the `try/except` prints and sets
`result = None` on any evaluation failure instead of propagating it),
wrap `result` (possibly `None`) with the expected unit, and finally parse
`z_dim` and compare dimensionalities, raising `DimensionalityError` on
mismatch. -/
def runtime_calculate_z (formula : PyExpr) (x_ y_ : List (List NFloat))
    (x_base y_base : UnitName) (z_dim : String) :
    Except PyErr RuntimeZResult :=
  match sympy_to_pint_quantity
      (result_unit_of_formula formula (sympify_pint_unit x_base)
        (sympify_pint_unit y_base)) with
  | .error e => .error e
  | .ok expected_result_unit =>
    let result := evalGrid formula x_ y_
    match parse_expression z_dim with
    | .error e => .error e
    | .ok zu =>
      if expected_result_unit.dim ≠ zu.dim then
        .error (.dimensionalityError expected_result_unit.dim zu.dim)
      else .ok ⟨result, expected_result_unit⟩

-- ===================== end of definitions =====================
-- ========================= theorems ==========================

theorem evalsTo_name (s : String) : EvalsTo (.name s) (DIMENSIONS s) := by
  intro rest out
  simp [postOrderLoop]

theorem evalsTo_binop (op : PyOp) (l r : PyExpr) (dl dr d : Option String)
    (hl : EvalsTo l dl) (hr : EvalsTo r dr)
    (hc : combineDims op dl dr = .ok d) :
    EvalsTo (.binop op l r) d := by
  intro rest out
  have h1 : postOrderLoop ((false, PyExpr.binop op l r) :: rest) out =
      postOrderLoop ((false, l) :: (false, r) :: (true, .binop op l r) :: rest) out := by
    simp [postOrderLoop]
  rw [h1, hl, hr]
  simp [postOrderLoop, hc]

theorem post_order_of_evalsTo (e : PyExpr) (d : Option String)
    (h : EvalsTo e d) : post_order e = .ok d := by
  unfold post_order
  rw [h [] []]
  simp [postOrderLoop]

theorem dimensions_x : DIMENSIONS "x" = some "m" := by simp [DIMENSIONS]

theorem dimensions_y : DIMENSIONS "y" = some "s" := by simp [DIMENSIONS]

theorem evalsTo_x : EvalsTo (.name "x") (some "m") := by
  have h := evalsTo_name "x"
  rwa [dimensions_x] at h

theorem evalsTo_y : EvalsTo (.name "y") (some "s") := by
  have h := evalsTo_name "y"
  rwa [dimensions_y] at h

/-- C2 (counterexample): on the addition node `x + y` with
`DIMENSIONS = {x: m, y: s}` the propagator of `formula_ast_dim.py` does not
raise anything: it returns normally with the marker string
'Dimension Mismatch', which names neither the two dimensions nor the
offending subexpression (no `DimensionMismatchError` exists in the code). -/
theorem c2_add_mismatch_counterexample :
    post_order (.binop .add (.name "x") (.name "y")) =
      .ok (some "Dimension Mismatch") := by
  simp [post_order, postOrderLoop, DIMENSIONS, combineDims]

/-- C2 (amended): for every addition or subtraction node whose operand
subexpressions propagate to dimensions `dl` and `dr`, the propagator
returns normally; when the dimensions differ the result is the marker
string 'Dimension Mismatch' (no exception is raised and no target
dimension is consulted), and when they are equal the result is the
operands' common dimension. -/
theorem c2_add_sub_marker (op : PyOp) (l r : PyExpr) (dl dr : Option String)
    (hop : op = .add ∨ op = .sub) (hl : EvalsTo l dl) (hr : EvalsTo r dr) :
    post_order (.binop op l r) =
      .ok (if dl = dr then dl else some "Dimension Mismatch") := by
  apply post_order_of_evalsTo
  apply evalsTo_binop op l r dl dr _ hl hr
  rcases hop with h | h <;> subst h <;> simp [combineDims]

/-- C2 witness: the amended theorem applied to the subtraction `x - x`,
whose operands share the dimension `m`; the result is that common
dimension. -/
theorem c2_add_sub_marker_witness :
    EvalsTo (.name "x") (some "m") ∧
    post_order (.binop .sub (.name "x") (.name "x")) = .ok (some "m") := by
  refine ⟨evalsTo_x, ?_⟩
  have h := c2_add_sub_marker .sub (.name "x") (.name "x") (some "m")
    (some "m") (Or.inr rfl) evalsTo_x evalsTo_x
  simpa using h

/-- C3 (counterexample): on the division node `x / x`, whose operand
dimensions are equal, `post_order` returns the empty string marker `''`
(`formula_ast_dim.py` line 40), not an explicit all-zero exponent vector:
the dimensionless result is exactly the empty marker the claim rules out. -/
theorem c3_div_equal_counterexample :
    post_order (.binop .div (.name "x") (.name "x")) = .ok (some "") := by
  simp [post_order, postOrderLoop, DIMENSIONS, combineDims]

/-- C3 (amended): dimensions are represented as strings, not exponent
vectors; for a division node whose operands propagate to dimension strings
`dl` and `dr`, the result is the flat concatenation `dl ++ "/" ++ dr` when
the strings differ and the empty string marker when they are equal. -/
theorem c3_div_string_result (l r : PyExpr) (dl dr : String)
    (hl : EvalsTo l (some dl)) (hr : EvalsTo r (some dr)) :
    post_order (.binop .div l r) =
      .ok (some (if dl = dr then "" else dl ++ "/" ++ dr)) := by
  apply post_order_of_evalsTo
  apply evalsTo_binop _ _ _ _ _ _ hl hr
  by_cases h : dl = dr <;> simp [combineDims, h]

/-- C3 witness: the amended theorem applied to `x / y` with operand
dimension strings `m` and `s`, giving the concatenation `m/s`. -/
theorem c3_div_string_result_witness :
    EvalsTo (.name "x") (some "m") ∧ EvalsTo (.name "y") (some "s") ∧
    post_order (.binop .div (.name "x") (.name "y")) = .ok (some "m/s") := by
  refine ⟨evalsTo_x, evalsTo_y, ?_⟩
  have h := c3_div_string_result (.name "x") (.name "y") "m" "s"
    evalsTo_x evalsTo_y
  simpa using h

/-- C4: evaluating the code at the failing input `x**2`: the numeric
literal `2` is "skipped" by the traversal without pushing an operand
dimension, and the `Pow` revisit then pops two operands from a one-element
list, so `post_order` crashes with an `IndexError` instead of producing
`m**2` (the module docstring's rule) or the test's expected marker
'Unhandled Operator'; no `NonDimensionlessExponentError` exists. -/
theorem c4_pow_literal_exponent_index_error :
    post_order (.binop .pow (.name "x") (.num 2)) = .error .indexError := by
  simp [post_order, postOrderLoop, DIMENSIONS, combineDims]

theorem arange_one_two_tenth :
    arangeList 1 2 (1/10) =
      [1, 11/10, 6/5, 13/10, 7/5, 3/2, 8/5, 17/10, 9/5, 19/10] := by
  have hc : (⌈((2:ℚ) - 1) / (1/10)⌉ : Int) = 10 := by norm_num
  rw [arangeList, hc]
  simp [List.range_succ]
  norm_num

theorem linspace_one_two_ten :
    linspaceList 1 2 10 =
      [1, 10/9, 11/9, 4/3, 13/9, 14/9, 5/3, 16/9, 17/9, 2] := by
  rw [linspaceList]
  norm_num
  simp [List.range_succ]
  norm_num

/-- C5 (counterexample): in step mode with logarithmic spacing
(`nstep = false`, `log = true`) no `ConfigurationError` is raised (none
exists in the code): `_generate_values` falls into the `else` branch and
calls `np.arange`, producing a 10-element sample sequence for
start=1, stop=2, step=0.1. -/
theorem c5_step_log_counterexample :
    _generate_values 1 2 (1/10) false true = .arangeCall 1 2 (1/10) ∧
    (arangeList 1 2 (1/10)).length = 10 := by
  refine ⟨rfl, ?_⟩
  rw [arange_one_two_tenth]
  rfl

/-- C5 (amended): the step/log combination is not rejected; it is silently
treated exactly like step/linear — `_generate_values` calls `np.arange`
with the same arguments, ignoring the log flag (which only affects the
axis display scale elsewhere). -/
theorem c5_step_log_is_arange (start stop step : ℚ) :
    _generate_values start stop step false true = .arangeCall start stop step ∧
    _generate_values start stop step false true =
      _generate_values start stop step false false :=
  ⟨rfl, rfl⟩

/-- C6: step/linear generation with start=1, stop=2, step=0.1 calls
`np.arange`, yielding exactly 10 samples all in the half-open interval
[1, 2); count/linear generation with start=1, stop=2, count=10 calls
`np.linspace`, yielding exactly 10 evenly spaced samples (consecutive
difference 1/9) whose first element is 1 and last element is 2. -/
theorem c6_boundary_samples :
    _generate_values 1 2 (1/10) false false = .arangeCall 1 2 (1/10) ∧
    (arangeList 1 2 (1/10)).length = 10 ∧
    (∀ q ∈ arangeList 1 2 (1/10), 1 ≤ q ∧ q < 2) ∧
    _generate_values 1 2 10 true false = .linspaceCall 1 2 10 ∧
    (linspaceList 1 2 10).length = 10 ∧
    (linspaceList 1 2 10).head? = some 1 ∧
    (linspaceList 1 2 10).getLast? = some 2 ∧
    (∀ i < 9, (linspaceList 1 2 10).getD (i + 1) 0 -
      (linspaceList 1 2 10).getD i 0 = 1/9) := by
  refine ⟨rfl, ?_, ?_, ?_, ?_, ?_, ?_, ?_⟩
  · rw [arange_one_two_tenth]; rfl
  · rw [arange_one_two_tenth]
    intro q hq
    fin_cases hq <;> norm_num
  · norm_num [_generate_values, pyInt]
    rfl
  · rw [linspace_one_two_ten]; rfl
  · rw [linspace_one_two_ten]; rfl
  · rw [linspace_one_two_ten]; rfl
  · intro i hi
    rw [linspace_one_two_ten]
    interval_cases i <;> norm_num [List.getD]

theorem invalid_eq_false_of_word_or_dot (c : Char)
    (h : (isWordChar c || c.toNat == 46) = true) :
    invalidFilenameChar c = false := by
  simp [isWordChar] at h
  simp [invalidFilenameChar, List.contains]
  omega

theorem sanitizeChar_word_or_dot (c : Char) :
    (isWordChar (sanitizeChar c) || (sanitizeChar c).toNat == 46) = true := by
  unfold sanitizeChar
  split
  · assumption
  · decide

theorem sanitizeChar_idem (c : Char) :
    sanitizeChar (sanitizeChar c) = sanitizeChar c := by
  unfold sanitizeChar
  split
  · simp [*]
  · decide

/-- C9: for every non-empty string, the sanitized filename has the same
length as the input, is non-empty, passes `_is_valid_filename` (every
produced character is a word character, a dot, or the replacement
underscore, none of which the validity regex rejects), and sanitizing a
second time changes nothing. -/
theorem c9_sanitize_filename_valid_idempotent (s : String) (h : s ≠ "") :
    (_sanitize_filename s).length = s.length ∧
    _sanitize_filename s ≠ "" ∧
    _is_valid_filename (_sanitize_filename s) = true ∧
    _sanitize_filename (_sanitize_filename s) = _sanitize_filename s := by
  obtain ⟨data⟩ := s
  have hdata : data ≠ [] := by
    intro hd
    exact h (by simp [hd])
  refine ⟨?_, ?_, ?_, ?_⟩
  · simp [_sanitize_filename, String.length]
  · simp [_sanitize_filename]
    intro hm
    have hm2 : List.map sanitizeChar data = [] := by
      simpa using congrArg String.data hm
    exact hdata (List.map_eq_nil_iff.mp hm2)
  · have hne : List.map sanitizeChar data ≠ [] :=
      fun hm => hdata (List.map_eq_nil_iff.mp hm)
    simp [_sanitize_filename, _is_valid_filename, hne]
    intro c hc
    exact invalid_eq_false_of_word_or_dot (sanitizeChar c)
      (sanitizeChar_word_or_dot c)
  · simp [_sanitize_filename, List.map_map]
    exact congrArg String.mk (List.map_congr_left fun a _ => sanitizeChar_idem a)

/-- C9 witness: the theorem applied to the concrete input "a b?.png":
sanitizing gives "a_b_.png", which is valid, of equal length, and fixed by
a second sanitization. -/
theorem c9_sanitize_filename_witness :
    "a b?.png" ≠ "" ∧
    (_sanitize_filename "a b?.png").length = ("a b?.png" : String).length ∧
    _sanitize_filename "a b?.png" ≠ "" ∧
    _is_valid_filename (_sanitize_filename "a b?.png") = true ∧
    _sanitize_filename (_sanitize_filename "a b?.png") =
      _sanitize_filename "a b?.png" := by
  have h : ("a b?.png" : String) ≠ "" := by decide
  exact ⟨h, c9_sanitize_filename_valid_idempotent "a b?.png" h⟩

/-- C10: whenever `Contour.__init__` succeeds, the non-axis arguments
title, formula, dim_res, nstep_x, nstep_y, x_log, y_log and verbose are
stored unchanged; with `swap_axes = true` every stored axis-1 attribute
equals the corresponding axis-2 argument and vice versa, and with
`swap_axes = false` every axis attribute is stored unchanged. -/
theorem c10_contour_init_swapping (title label_1 label_2 formula dim_res :
      String) (min_1 max_1 step_1 : ℚ) (dim_1 : String)
    (min_2 max_2 step_2 : ℚ) (dim_2 : String)
    (nstep_x nstep_y x_log y_log swap_axes verbose : Bool) (c : Contour)
    (h : Contour.init title label_1 label_2 formula dim_res min_1 max_1
      step_1 dim_1 min_2 max_2 step_2 dim_2 nstep_x nstep_y x_log y_log
      swap_axes verbose = .ok c) :
    c.title = title ∧ c.formula = formula ∧ c.dim_res = dim_res ∧
    c.nstep_x = nstep_x ∧ c.nstep_y = nstep_y ∧ c.x_log = x_log ∧
    c.y_log = y_log ∧ c.verbose = verbose ∧
    (swap_axes = true →
      c.axes.label_1 = label_2 ∧ c.axes.min_1 = min_2 ∧
      c.axes.max_1 = max_2 ∧ c.axes.step_1 = step_2 ∧
      c.axes.dim_1 = dim_2 ∧ c.axes.label_2 = label_1 ∧
      c.axes.min_2 = min_1 ∧ c.axes.max_2 = max_1 ∧
      c.axes.step_2 = step_1 ∧ c.axes.dim_2 = dim_1) ∧
    (swap_axes = false →
      c.axes.label_1 = label_1 ∧ c.axes.min_1 = min_1 ∧
      c.axes.max_1 = max_1 ∧ c.axes.step_1 = step_1 ∧
      c.axes.dim_1 = dim_1 ∧ c.axes.label_2 = label_2 ∧
      c.axes.min_2 = min_2 ∧ c.axes.max_2 = max_2 ∧
      c.axes.step_2 = step_2 ∧ c.axes.dim_2 = dim_2) := by
  unfold Contour.init at h
  cases hv : unit_validation [dim_res, dim_1, dim_2] with
  | error e => rw [hv] at h; cases h
  | ok u =>
    rw [hv] at h
    split_ifs at h with h1 h2 h3 h4
    all_goals cases h
    refine ⟨rfl, rfl, rfl, rfl, rfl, rfl, rfl, rfl, ?_, ?_⟩
    · intro hs
      subst hs
      simp [initialize_swapping_axes]
    · intro hs
      subst hs
      simp [initialize_swapping_axes]

/-- C10 witness: the theorem applied to a concrete successful construction
with `swap_axes = true`: the stored axis-1 attributes are the axis-2
arguments and vice versa. -/
theorem c10_contour_init_swapping_witness :
    Contour.init "t" "a" "b" "x + y" "meter" 1 2 (1/10) "meter" 3 4 (1/5)
      "second" false false false false true false =
      .ok (Contour.mk "t" "x + y" "meter" false false false false true
        ⟨"b", "a", 3, 4, 1/5, "second", 1, 2, 1/10, "meter"⟩ false) ∧
    (Contour.mk "t" "x + y" "meter" false false false false true
        ⟨"b", "a", 3, 4, 1/5, "second", 1, 2, 1/10, "meter"⟩
        false).axes.dim_1 = "second" ∧
    (Contour.mk "t" "x + y" "meter" false false false false true
        ⟨"b", "a", 3, 4, 1/5, "second", 1, 2, 1/10, "meter"⟩
        false).axes.dim_2 = "meter" := by
  have h : Contour.init "t" "a" "b" "x + y" "meter" 1 2 (1/10) "meter" 3 4
      (1/5) "second" false false false false true false =
      .ok (Contour.mk "t" "x + y" "meter" false false false false true
        ⟨"b", "a", 3, 4, 1/5, "second", 1, 2, 1/10, "meter"⟩ false) := by
    norm_num [Contour.init, unit_validation, parseUnitName,
      initialize_swapping_axes]
  have hp := c10_contour_init_swapping "t" "a" "b" "x + y" "meter" 1 2
    (1/10) "meter" 3 4 (1/5) "second" false false false false true false _ h
  exact ⟨h, (hp.2.2.2.2.2.2.2.2.1 rfl).2.2.2.2.1,
    (hp.2.2.2.2.2.2.2.2.1 rfl).2.2.2.2.2.2.2.2.2⟩


theorem symNeg_not_qty (a : SymExpr) (ha : a.isQty = false) :
    (symNeg a).isQty = false := by
  cases a <;> simp_all [symNeg, SymExpr.isQty]

theorem symInv_not_qty (a : SymExpr) (ha : a.isQty = false) :
    (symInv a).isQty = false := by
  cases a with
  | num c => simp only [symInv]; split_ifs <;> rfl
  | qty c d => simp [SymExpr.isQty] at ha
  | residual => rfl

theorem symIntPow_not_qty (a : SymExpr) (n : Int) (ha : a.isQty = false) :
    (symIntPow a n).isQty = false := by
  cases a with
  | num c => simp only [symIntPow]; split_ifs <;> rfl
  | qty c d => simp [SymExpr.isQty] at ha
  | residual => rfl

theorem symAdd_not_qty (a b : SymExpr) (ha : a.isQty = false)
    (hb : b.isQty = false) : (symAdd a b).isQty = false := by
  cases a <;> cases b <;> simp_all [symAdd, SymExpr.isQty]

theorem symMul_not_qty (a b : SymExpr) (ha : a.isQty = false)
    (hb : b.isQty = false) : (symMul a b).isQty = false := by
  cases a <;> cases b <;> simp_all [symMul, SymExpr.isQty] <;>
    split_ifs <;> simp [SymExpr.isQty]

theorem symOp_not_qty (op : PyOp) (a b : SymExpr) (ha : a.isQty = false)
    (hb : b.isQty = false) : (symOp op a b).isQty = false := by
  cases op with
  | add => exact symAdd_not_qty a b ha hb
  | sub =>
    have h := symAdd_not_qty a (symNeg b) ha (symNeg_not_qty b hb)
    simpa [symOp, symSub] using h
  | mult => exact symMul_not_qty a b ha hb
  | div =>
    have h := symMul_not_qty a (symInv b) ha (symInv_not_qty b hb)
    simpa [symOp, symDiv] using h
  | pow =>
    cases b with
    | num k =>
      simp only [symOp, symPow]
      split_ifs
      · exact symIntPow_not_qty a k.num ha
      · rfl
    | qty c d => simp [SymExpr.isQty] at hb
    | residual => cases a <;> rfl

theorem result_unit_of_formula_not_qty (f : PyExpr) (xq yq : SymExpr)
    (hx : xq.isQty = false) (hy : yq.isQty = false) :
    (result_unit_of_formula f xq yq).isQty = false := by
  induction f with
  | name s =>
    simp only [result_unit_of_formula]
    split_ifs
    · exact hx
    · exact hy
    · rfl
  | num c => rfl
  | binop op l r ihl ihr =>
    simp only [result_unit_of_formula]
    exact symOp_not_qty op _ _ ihl ihr

theorem sympy_to_pint_error_of_not_qty (e : SymExpr)
    (h : e.isQty = false) :
    ∃ err, sympy_to_pint_quantity e = .error err := by
  cases e with
  | num c => exact ⟨.valueError, rfl⟩
  | qty c d => simp [SymExpr.isQty] at h
  | residual => exact ⟨.keyError, rfl⟩

theorem runtime_conversion_always_fails (f : PyExpr)
    (X Y : List (List NFloat)) (bu1 bu2 : UnitName) (zd : String) :
    ∃ e, runtime_calculate_z f X Y bu1 bu2 zd = .error e ∧
      sympy_to_pint_quantity (result_unit_of_formula f
        (sympify_pint_unit bu1) (sympify_pint_unit bu2)) = .error e := by
  obtain ⟨err, herr⟩ := sympy_to_pint_error_of_not_qty _
    (result_unit_of_formula_not_qty f (sympify_pint_unit bu1)
      (sympify_pint_unit bu2) rfl rfl)
  refine ⟨err, ?_, herr⟩
  unfold runtime_calculate_z
  rw [herr]

/-- C1: the two dimension-computation paths cannot agree on any input,
because the post-evaluation path never completes: the pint base units
`runtime_calculate_z` substitutes are sympified into plain Symbols,
which are never keys of the `Quantity`-keyed `sympy_to_pint_mapping`, so
the expected-unit conversion step always raises before the grid is
touched.  Concretely, `x + y` over meter axes with target meter fails
with `KeyError`; universally, no invocation of `runtime_calculate_z`
ever returns, so there is no recovered dimension the pre-check could be
compared with. -/
theorem c1_post_check_path_never_returns :
    runtime_calculate_z (.binop .add (.name "x") (.name "y"))
      [[.val 1]] [[.val 1]] .meter .meter "meter" = .error .keyError ∧
    ∀ (f : PyExpr) (X Y : List (List NFloat)) (bu1 bu2 : UnitName)
      (zd : String) (r : RuntimeZResult),
      runtime_calculate_z f X Y bu1 bu2 zd ≠ .ok r := by
  constructor
  · rfl
  · intro f X Y bu1 bu2 zd r hok
    obtain ⟨e, he, _⟩ := runtime_conversion_always_fails f X Y bu1 bu2 zd
    rw [he] at hok
    cases hok

/-- C7: evaluating the code at the failing input of its own test
`test_calculate_z`: `calculate_z("x/y", 5, 0, "")` raises `KeyError` (the
dimensionless unit of the plain-number inputs is not in
`unit_mapping_pint_sympy`), not `ZeroDivisionError` — the numeric step
evaluates the constant matrix `[[x, y]]` instead of the formula, so no
division ever happens on the scalar path.  For the vectorized half: the
bare `ne.evaluate` call in isolation computes the grid [[inf], [5.0]]
non-fatally, as the claim describes, but the program's grid path
`runtime_calculate_z` raises `KeyError` at the expected-unit step before
that evaluation is reached, so the non-fatal grid is never returned
either. -/
theorem c7_scalar_path_never_divides :
    calculate_z (.binop .div (.name "x") (.name "y"))
      (.scalar 5) (.scalar 0) "" = .error .keyError ∧
    evalGrid (.binop .div (.name "x") (.name "y"))
      (np_meshgrid [.val 5] [.val 0, .val 1]).1
      (np_meshgrid [.val 5] [.val 0, .val 1]).2 =
      some [[.inf], [.val 5]] ∧
    runtime_calculate_z (.binop .div (.name "x") (.name "y"))
      (np_meshgrid [.val 5] [.val 0, .val 1]).1
      (np_meshgrid [.val 5] [.val 0, .val 1]).2
      .meter .second "" = .error .keyError := by
  refine ⟨rfl, ?_, rfl⟩
  norm_num [np_meshgrid, evalGrid, evalRow, evalCell, nfDiv,
    (by decide : ¬ (("y" : String) = "x"))]

/-- C8: fail closed holds for the vectorized core path: every invocation
of `runtime_calculate_z` fails, the error it returns is exactly the one
raised at its point of detection (the expected-unit conversion),
propagated unmodified, and no success value — in particular no result
object built from a partially computed or absent grid — is ever
returned.  The `except` branch around `ne.evaluate` that would swallow a
numeric failure and continue with `result = None` is unreachable,
because the conversion step always raises first. -/
theorem c8_fail_closed (f : PyExpr) (X Y : List (List NFloat))
    (bu1 bu2 : UnitName) (zd : String) :
    (∀ r : RuntimeZResult, runtime_calculate_z f X Y bu1 bu2 zd ≠ .ok r) ∧
    ∃ e, runtime_calculate_z f X Y bu1 bu2 zd = .error e ∧
      sympy_to_pint_quantity (result_unit_of_formula f
        (sympify_pint_unit bu1) (sympify_pint_unit bu2)) = .error e := by
  obtain ⟨e, he, hconv⟩ := runtime_conversion_always_fails f X Y bu1 bu2 zd
  refine ⟨?_, e, he, hconv⟩
  intro r hok
  rw [he] at hok
  cases hok
